import Mathlib

/-!
# Verification of the plate-recognition pipeline (`app_api.py`)

Shallow embedding of the plate-recognition-and-verification pipeline of
`app_api.py`: string canonicalization, the OCR adapter with both supported
result shapes, the detector box-selection loop, the registry lookup client
`consultar_estado_legal`, the report store (`guardar_reporte` /
`verificar_reporte`), and the orchestrator `detect_plate`.

Modelling conventions:
* Python strings are Lean `String`s; the ASCII fragment of `str.isalnum` /
  `str.upper` is embedded as `pyIsAlnum` / `pyToUpper` (license plates only
  contain ASCII characters).
* External effects (HTTP transport, XML/JSON parsing of the registry body,
  database persistence, the YOLO detector, the PaddleOCR engine, JPEG
  encoding) are inputs of the pipeline: the environment records the outcome
  each external capability would produce, and the embedded code branches on
  those outcomes exactly as the Python code does.
* The database `reportes` table is a list of `Reporte` rows; SQLAlchemy's
  `.filter(...).first()` is `List.find?`.
-/

/-- ASCII embedding of Python `str.isalnum` on one character
(digits `0-9`, letters `A-Z` and `a-z`). -/
def pyIsAlnum (c : Char) : Bool :=
  (48 ≤ c.toNat && c.toNat ≤ 57) ||
  (65 ≤ c.toNat && c.toNat ≤ 90) ||
  (97 ≤ c.toNat && c.toNat ≤ 122)

/-- ASCII embedding of Python `str.upper` on one character:
`a-z` is mapped to `A-Z`, everything else is unchanged. -/
def pyToUpper (c : Char) : Char :=
  if 97 ≤ c.toNat ∧ c.toNat ≤ 122 then Char.ofNat (c.toNat - 32) else c

/-- Python `s.upper()` (ASCII fragment). -/
def pyUpper (s : String) : String :=
  (s.toList.map pyToUpper).asString

/-- Python whitespace characters stripped by `str.strip()`. -/
def pyIsSpace (c : Char) : Bool :=
  c == ' ' || c == '\t' || c == '\n' || c == '\r' || c == '\x0b' || c == '\x0c'

/-- Python `s.strip()`: drop leading and trailing whitespace. -/
def pyStrip (s : String) : String :=
  (((s.toList.dropWhile pyIsSpace).reverse.dropWhile pyIsSpace).reverse).asString

/-- `app_api.py` line 241 / 245: `"".join(filter(str.isalnum, text)).upper()` —
keep only alphanumeric characters, then uppercase. -/
def canonicalize (s : String) : String :=
  pyUpper (s.toList.filter pyIsAlnum).asString

/-- Python `s.replace(x, "")` for a single-character pattern `x`:
remove every occurrence of the character. -/
def removeChar (x : Char) (s : String) : String :=
  (s.toList.filter (fun c => c != x)).asString

/-- `app_api.py` line 253: `detected_plate.replace("-", "").replace(" ", "")`. -/
def removeDashSpace (s : String) : String :=
  removeChar ' ' (removeChar '-' s)

/-- `app_api.py` line 161: the `RegistrationNumber` query parameter,
`placa_detectada.replace("-", "").upper()`. -/
def regNumberParam (placa_detectada : String) : String :=
  pyUpper (removeChar '-' placa_detectada)

/-- `app_api.py` line 339: the plate stored by the `/api/reportar` endpoint,
`data.get("placa", "").strip().upper()`. -/
def reportStoredPlate (raw : String) : String :=
  pyUpper (pyStrip raw)

-- ### Character-level lemmas for the canonicalization proofs

theorem toNat_charOfNat_of_valid (n : Nat) (h : n.isValidChar) :
    (Char.ofNat n).toNat = n := by
  simp only [Char.ofNat, dif_pos h, Char.ofNatAux, Char.toNat, UInt32.toNat]
  simp

theorem pyToUpper_toNat_of_lower (c : Char) (h1 : 97 ≤ c.toNat) (h2 : c.toNat ≤ 122) :
    (pyToUpper c).toNat = c.toNat - 32 := by
  have hv : (c.toNat - 32).isValidChar := Or.inl (by omega)
  simp only [pyToUpper, if_pos (And.intro h1 h2)]
  exact toNat_charOfNat_of_valid _ hv

theorem pyToUpper_eq_of_not_lower (c : Char) (h : ¬(97 ≤ c.toNat ∧ c.toNat ≤ 122)) :
    pyToUpper c = c := by
  simp only [pyToUpper, if_neg h]

theorem pyIsAlnum_pyToUpper (c : Char) (h : pyIsAlnum c = true) :
    pyIsAlnum (pyToUpper c) = true := by
  by_cases hl : 97 ≤ c.toNat ∧ c.toNat ≤ 122
  · have ht := pyToUpper_toNat_of_lower c hl.1 hl.2
    simp only [pyIsAlnum, Bool.or_eq_true, Bool.and_eq_true, decide_eq_true_eq] at h ⊢
    rw [ht]
    omega
  · rw [pyToUpper_eq_of_not_lower c hl]
    exact h

theorem pyToUpper_idem (c : Char) : pyToUpper (pyToUpper c) = pyToUpper c := by
  by_cases hl : 97 ≤ c.toNat ∧ c.toNat ≤ 122
  · have ht := pyToUpper_toNat_of_lower c hl.1 hl.2
    apply pyToUpper_eq_of_not_lower
    omega
  · rw [pyToUpper_eq_of_not_lower c hl]
    exact pyToUpper_eq_of_not_lower c hl

/-- The character list underlying `canonicalize`. -/
def canonList (l : List Char) : List Char :=
  (l.filter pyIsAlnum).map pyToUpper

theorem toList_asString (l : List Char) : (l.asString).toList = l := rfl

theorem canonicalize_eq_canonList (s : String) :
    canonicalize s = (canonList s.toList).asString := rfl

theorem canonList_idem (l : List Char) : canonList (canonList l) = canonList l := by
  unfold canonList
  rw [List.filter_map]
  have hfix : (l.filter pyIsAlnum).filter (pyIsAlnum ∘ pyToUpper) = l.filter pyIsAlnum := by
    apply List.filter_eq_self.mpr
    intro a ha
    exact pyIsAlnum_pyToUpper a (List.of_mem_filter ha)
  rw [hfix, List.map_map]
  apply List.map_congr_left
  intro a _
  exact pyToUpper_idem a

theorem canonList_all_alnum (l : List Char) (c : Char) (hc : c ∈ canonList l) :
    pyIsAlnum c = true := by
  unfold canonList at hc
  rcases List.mem_map.mp hc with ⟨b, hb, rfl⟩
  exact pyIsAlnum_pyToUpper b (List.of_mem_filter hb)

-- ### Data model of the pipeline environment

/-- A detector bounding box `(x1, y1, x2, y2)` (`app_api.py` line 230–231). -/
abbrev Box : Type := Nat × Nat × Nat × Nat

/-- The two result shapes the OCR engine may return (`app_api.py` lines 238–247),
plus the falsy case (`result` is `None` or an empty list).
* `structured ts`: `result[0]` is a dict; `ts` models `result[0].get("rec_texts", [])`.
* `legacy ds`: `result[0]` is a list of detections; `ds` models the recognized
  text of each detection (`det[1][0]`), so `result[0][0][1][0]` is `ds.head`,
  and the `IndexError` caught at line 246 is the `ds = []` case. -/
inductive OcrResult where
  | falsy : OcrResult
  | structured (rec_texts : List String) : OcrResult
  | legacy (dets : List String) : OcrResult

/-- Lines 237–247: unpack the OCR result into `detected_plate`, starting from
the sentinel `"OCR_FALLIDO"` and canonicalizing the first recognized span of
whichever shape is present. -/
def extractPlate : OcrResult → String
  | OcrResult.falsy => "OCR_FALLIDO"
  | OcrResult.structured rec_texts =>
    match rec_texts with
    | [] => "OCR_FALLIDO"
    | t :: _ => canonicalize t
  | OcrResult.legacy dets =>
    match dets with
    | [] => "OCR_FALLIDO"
    | d :: _ => canonicalize d

/-- One row of the `reportes` table (`app_api.py` lines 64–70); the timestamp
is abstracted to a `Nat`. -/
structure Reporte where
  placa : String
  descripcion : String
  fecha_reporte : Nat
deriving DecidableEq

/-- Lines 108–111: first row whose `placa` equals the query, returning its
description. -/
def verificar_reporte (placa : String) (db : List Reporte) : Option String :=
  match db.find? (fun r => r.placa == placa) with
  | Option.some r => Option.some r.descripcion
  | Option.none => Option.none

/-- Mutation of the first row matching the plate (SQLAlchemy `.first()` then
attribute assignment, lines 115–118). -/
def updateFirst (placa descripcion : String) (now : Nat) : List Reporte → List Reporte
  | [] => []
  | r :: rs =>
    if r.placa == placa then Reporte.mk r.placa descripcion now :: rs
    else r :: updateFirst placa descripcion now rs

/-- Lines 113–126: upsert of a report — overwrite the existing row's
description and timestamp if the plate exists, insert a new row otherwise. -/
def guardar_reporte (placa descripcion : String) (now : Nat) (db : List Reporte) : List Reporte :=
  match db.find? (fun r => r.placa == placa) with
  | Option.some _ => updateFirst placa descripcion now db
  | Option.none => db ++ [Reporte.mk placa descripcion now]

/-- The `reportes` table invariant backed by the `UNIQUE` constraint on
`placa` (lines 67 and 70): no two rows share a plate. -/
def distinctPlates (db : List Reporte) : Prop :=
  db.Pairwise (fun a b => a.placa ≠ b.placa)

/-- The embedded vehicle JSON payload of a registry response
(lines 176–183); each field is absent or a string. -/
structure VehicleData where
  make : Option String
  model : Option String
  registrationYear : Option String
  vin : Option String
  use : Option String
  owner : Option String
  imageUrl : Option String
deriving DecidableEq

/-- Outcome of XML/JSON parsing of a registry response body
(lines 169–176): the parse raises, the `vehicleJson` element is missing or
empty, or a vehicle payload is obtained. -/
inductive ParsedBody where
  | parseError (msg : String) : ParsedBody
  | noVehicleJson : ParsedBody
  | vehicle (d : VehicleData) : ParsedBody
deriving DecidableEq

/-- An HTTP response from the registry endpoint: status code, raw body (for
the substring marker check of line 166), and what parsing the body yields. -/
structure RegHttpResponse where
  statusCode : Nat
  content : String
  parsed : ParsedBody
deriving DecidableEq

/-- Environment of one `consultar_estado_legal` call: the transport outcome
of `requests.get` (`Except.error` models a raised transport exception), and
whether the `guardar_consulta` persistence call of line 187 raises
(with the exception's text). -/
structure LookupEnv where
  http : Except String RegHttpResponse
  persistFails : Bool
  persistError : String

/-- The dict returned by `consultar_estado_legal`
(`{"estado": ..., "imagen_url": ...}`). -/
structure LookupResult where
  estado : String
  imagen_url : Option String
deriving DecidableEq

/-- `needle.isPrefixOf hay` on character lists, written out. -/
def leadsWith : List Char → List Char → Bool
  | [], _ => true
  | _ :: _, [] => false
  | a :: as, b :: bs => a == b && leadsWith as bs

/-- Substring test on character lists: Python `needle in hay` on bytes. -/
def containsSeq (needle : List Char) : List Char → Bool
  | [] => leadsWith needle []
  | c :: rest => leadsWith needle (c :: rest) || containsSeq needle rest

/-- Line 166: `b"Peru Lookup failed" in response.content`. -/
def containsMarker (content : String) : Bool :=
  containsSeq "Peru Lookup failed".toList content.toList

/-- `app_api.py` lines 160–192, `consultar_estado_legal`: branch on the
transport outcome, the status code, the failure marker, the parse outcome,
then format the success status string; the `guardar_consulta` call sits
inside the same `try`, so a persistence exception is caught by the
`except` of line 190 and produces the generic RegCheck error result. -/
def consultar_estado_legal (placa_detectada : String) (env : LookupEnv) : LookupResult :=
  match env.http with
  | Except.error e => LookupResult.mk ("⚠ Error conectando con RegCheck: " ++ e) Option.none
  | Except.ok response =>
    if response.statusCode ≠ 200 then
      LookupResult.mk ("⚠ ERROR " ++ toString response.statusCode ++ ": Servidor no disponible.") Option.none
    else if containsMarker response.content then
      LookupResult.mk ("❌ No se encontró la placa " ++ placa_detectada ++ ".") Option.none
    else
      match response.parsed with
      | ParsedBody.parseError e =>
        LookupResult.mk ("⚠ Error conectando con RegCheck: " ++ e) Option.none
      | ParsedBody.noVehicleJson =>
        LookupResult.mk ("⚠ No se encontraron datos para " ++ placa_detectada ++ ".") Option.none
      | ParsedBody.vehicle d =>
        let make := d.make.getD "N/A"
        let model := d.model.getD "N/A"
        let year := d.registrationYear.getD "N/A"
        let vin := d.vin.getD "No disponible"
        let use_type := d.use.getD "Desconocido"
        let owner := d.owner.getD "No disponible"
        let estado := "✅ Marca: " ++ make ++ ", Modelo: " ++ model ++ ", Año: " ++ year ++
          ", Uso: " ++ use_type ++ ", VIN: " ++ vin ++ ", Propietario: " ++ owner
        if env.persistFails then
          LookupResult.mk ("⚠ Error conectando con RegCheck: " ++ env.persistError) Option.none
        else
          LookupResult.mk estado d.imageUrl

/-- Environment of one `/api/detect_plate` request (lines 214–265), after the
model-loading and file-presence guards. `decodeOk` is whether `cv2.imdecode`
returns an image; `results` are the per-result-object box lists the detector
returns at the fixed 0.5 confidence threshold (line 223), in result order;
`ocr` and `preview` give, for the cropped region of a box, the OCR engine's
output and the base64 JPEG encoding of the crop; `lookup` is the registry
call's environment and `reports` the current `reportes` table. -/
structure PipelineEnv where
  decodeOk : Bool
  results : List (List Box)
  ocr : Box → OcrResult
  preview : Box → String
  lookup : LookupEnv
  reports : List Reporte

/-- The box the loop of lines 228–248 selects: the first box of the first
result object that has boxes (the loop `break`s after processing it). -/
def firstBox : List (List Box) → Option Box
  | [] => Option.none
  | r :: rs =>
    match r with
    | [] => firstBox rs
    | b :: _ => Option.some b

/-- The `(detected_plate, placa_base64)` pair after the loop of lines
225–248: the sentinels if no region was found, otherwise the canonicalized
OCR text of the first box together with the crop's base64 preview. -/
def loopOutcome (env : PipelineEnv) : String × Option String :=
  match firstBox env.results with
  | Option.none => ("PLACA_NO_ENCONTRADA", Option.none)
  | Option.some b => (extractPlate (env.ocr b), Option.some (env.preview b))

/-- The JSON body (plus HTTP status code) `detect_plate` answers with.
Absent JSON keys are `Option.none`. -/
structure ApiResponse where
  status : String
  httpCode : Nat
  placa_detectada : Option String
  message : Option String
  estado_legal : Option LookupResult
  placa_imagen : Option String
deriving DecidableEq

/-- `app_api.py` lines 214–265, the `/api/detect_plate` orchestrator:
decode guard (line 219–220), detection/OCR loop, sentinel check (line 250,
a 400 "fail" response that carries the sentinel but not the preview),
hyphen/space cleanup, registry lookup, report cross-check and the final
success response. -/
def detect_plate (env : PipelineEnv) : ApiResponse :=
  if env.decodeOk = false then
    ApiResponse.mk "fail" 400 Option.none (Option.some "No se pudo decodificar la imagen.")
      Option.none Option.none
  else
    let outcome := loopOutcome env
    let detected_plate := outcome.1
    if detected_plate = "PLACA_NO_ENCONTRADA" ∨ detected_plate = "OCR_FALLIDO" then
      ApiResponse.mk "fail" 400 (Option.some detected_plate)
        (Option.some "No se logró reconocer la placa.") Option.none Option.none
    else
      let placa_limpia := removeDashSpace detected_plate
      let estado_legal_externo := consultar_estado_legal placa_limpia env.lookup
      let con_reporte :=
        match verificar_reporte placa_limpia env.reports with
        | Option.some descripcion =>
          LookupResult.mk (estado_legal_externo.estado ++ " 🚨 ALERTA: " ++ descripcion)
            estado_legal_externo.imagen_url
        | Option.none => estado_legal_externo
      ApiResponse.mk "success" 200 (Option.some (pyUpper detected_plate)) Option.none
        (Option.some con_reporte) outcome.2

/-- The registry-lookup failure modes listed in §4.4/§7 of the design: a
transport or parse exception, a non-200 status, the "Peru Lookup failed"
marker, or a missing/empty `vehicleJson` element. -/
def lookupFailed (env : LookupEnv) : Prop :=
  (∃ e, env.http = Except.error e) ∨
  (∃ resp, env.http = Except.ok resp ∧
    (resp.statusCode ≠ 200 ∨ containsMarker resp.content = true ∨
     resp.parsed = ParsedBody.noVehicleJson ∨ ∃ m, resp.parsed = ParsedBody.parseError m))

theorem firstBox_eq_head_flatten (rs : List (List Box)) :
    firstBox rs = rs.flatten.head? := by
  induction rs with
  | nil => rfl
  | cons r rs ih =>
    cases r with
    | nil => simpa [firstBox] using ih
    | cons b bs => simp [firstBox]

-- ### Concrete environments used by the scenario theorems and witnesses

/-- A lookup environment whose transport call raises (its details are
irrelevant to the theorems that use it). -/
def stubLookup : LookupEnv := LookupEnv.mk (Except.error "stub") false ""

/-- Scenario environment of §8: the image decodes, the detector returns one
box `(10,10,200,80)`, the OCR returns the structured shape
`{rec_texts: ["ab-12 345"]}`. -/
def envC7 : PipelineEnv :=
  PipelineEnv.mk true [[(10, 10, 200, 80)]]
    (fun _ => OcrResult.structured ["ab-12 345"]) (fun _ => "B64PREVIEW") stubLookup []

/-- Environment where the OCR recognizes a text span with no alphanumeric
character (`"---"`). -/
def envC1 : PipelineEnv :=
  PipelineEnv.mk true [[(10, 10, 200, 80)]]
    (fun _ => OcrResult.structured ["---"]) (fun _ => "B64PREVIEW") stubLookup []

-- ### Claim theorems

/-- C9: canonicalization (keep only alphanumeric characters, then uppercase)
is idempotent: applying it twice yields the same string as applying it
once, for every string. -/
theorem C9_canonicalize_idempotent (s : String) :
    canonicalize (canonicalize s) = canonicalize s := by
  calc canonicalize (canonicalize s)
      = (canonList (canonicalize s).toList).asString := canonicalize_eq_canonList _
    _ = (canonList (canonList s.toList)).asString := by
        rw [canonicalize_eq_canonList s, toList_asString]
    _ = (canonList s.toList).asString := by rw [canonList_idem]
    _ = canonicalize s := (canonicalize_eq_canonList s).symm

/-- C7: in the scenario where the image decodes, the detector returns one box
and the OCR returns the structured shape with first text `"ab-12 345"`, the
canonical plate is `"AB12345"`, the response reports that plate, and the
registry lookup is invoked with the plate `"AB12345"`, whose
`RegistrationNumber` query parameter (hyphens stripped, uppercased) is
`"AB12345"`. -/
theorem C7_scenario_structured_plate :
    canonicalize "ab-12 345" = "AB12345" ∧
    regNumberParam "AB12345" = "AB12345" ∧
    (detect_plate envC7).status = "success" ∧
    (detect_plate envC7).placa_detectada = Option.some "AB12345" ∧
    (detect_plate envC7).estado_legal =
      Option.some (consultar_estado_legal "AB12345" envC7.lookup) := by
  decide

/-- C1 (code-bug evaluation): an OCR text span that becomes empty after the
alphanumeric filter (here `"---"`) does **not** produce the `OcrFailure`
outcome: the empty plate string is not in the sentinel list of line 250, so
`detect_plate` answers `status = "success"` (HTTP 200) and invokes the
registry lookup with the empty plate — contradicting the claimed
`"OCR_FALLIDO"` / 400 behaviour. -/
theorem C1_empty_canonical_plate_proceeds :
    canonicalize "---" = "" ∧
    (detect_plate envC1).status = "success" ∧
    (detect_plate envC1).httpCode = 200 ∧
    (detect_plate envC1).placa_detectada = Option.some "" ∧
    (detect_plate envC1).estado_legal =
      Option.some (consultar_estado_legal "" envC1.lookup) := by
  decide

-- ### Branch characterizations of detect_plate

theorem detect_plate_decode_fail (env : PipelineEnv) (hdec : env.decodeOk = false) :
    detect_plate env =
      ApiResponse.mk "fail" 400 Option.none
        (Option.some "No se pudo decodificar la imagen.") Option.none Option.none := by
  unfold detect_plate
  rw [if_pos hdec]

theorem detect_plate_sentinel (env : PipelineEnv) (hdec : env.decodeOk = true)
    (hs : (loopOutcome env).1 = "PLACA_NO_ENCONTRADA" ∨ (loopOutcome env).1 = "OCR_FALLIDO") :
    detect_plate env =
      ApiResponse.mk "fail" 400 (Option.some (loopOutcome env).1)
        (Option.some "No se logró reconocer la placa.") Option.none Option.none := by
  unfold detect_plate
  rw [hdec]
  rw [if_neg (by simp)]
  rw [if_pos hs]

theorem detect_plate_success (env : PipelineEnv) (hdec : env.decodeOk = true)
    (hns : ¬((loopOutcome env).1 = "PLACA_NO_ENCONTRADA" ∨ (loopOutcome env).1 = "OCR_FALLIDO")) :
    detect_plate env =
      ApiResponse.mk "success" 200 (Option.some (pyUpper (loopOutcome env).1)) Option.none
        (Option.some
          (match verificar_reporte (removeDashSpace (loopOutcome env).1) env.reports with
           | Option.some descripcion =>
             LookupResult.mk
               ((consultar_estado_legal (removeDashSpace (loopOutcome env).1) env.lookup).estado
                 ++ " 🚨 ALERTA: " ++ descripcion)
               (consultar_estado_legal (removeDashSpace (loopOutcome env).1) env.lookup).imagen_url
           | Option.none =>
             consultar_estado_legal (removeDashSpace (loopOutcome env).1) env.lookup))
        (loopOutcome env).2 := by
  unfold detect_plate
  rw [hdec]
  rw [if_neg (by simp)]
  rw [if_neg hns]

theorem detect_plate_status_success_inv (env : PipelineEnv)
    (hs : (detect_plate env).status = "success") :
    env.decodeOk = true ∧
      ¬((loopOutcome env).1 = "PLACA_NO_ENCONTRADA" ∨ (loopOutcome env).1 = "OCR_FALLIDO") := by
  by_cases hdec : env.decodeOk = false
  · rw [detect_plate_decode_fail env hdec] at hs
    simp at hs
  · have hdec2 : env.decodeOk = true := by
      cases h : env.decodeOk
      · exact absurd h hdec
      · rfl
    refine ⟨hdec2, ?_⟩
    intro hsent
    rw [detect_plate_sentinel env hdec2 hsent] at hs
    simp at hs

/-- C5: if the detector output contains zero boxes at the 0.5 threshold, the
response is the 400 "fail" answer carrying the sentinel
`"PLACA_NO_ENCONTRADA"`; if it contains at least one box, the pipeline uses
exactly the first box in result order: the OCR runs on that box's crop and
the preview is that crop's encoding. -/
theorem C5_detection_first_box_policy (env : PipelineEnv) (hdec : env.decodeOk = true) :
    (env.results.flatten = [] →
      detect_plate env =
        ApiResponse.mk "fail" 400 (Option.some "PLACA_NO_ENCONTRADA")
          (Option.some "No se logró reconocer la placa.") Option.none Option.none) ∧
    (∀ b, env.results.flatten.head? = Option.some b →
      (loopOutcome env).1 = extractPlate (env.ocr b) ∧
      (loopOutcome env).2 = Option.some (env.preview b)) := by
  constructor
  · intro hflat
    have hfb : firstBox env.results = Option.none := by
      rw [firstBox_eq_head_flatten, hflat]
      rfl
    have hlo : loopOutcome env = ("PLACA_NO_ENCONTRADA", Option.none) := by
      unfold loopOutcome
      rw [hfb]
    have := detect_plate_sentinel env hdec (by rw [hlo]; exact Or.inl rfl)
    rw [hlo] at this
    exact this
  · intro b hb
    have hfb : firstBox env.results = Option.some b := by
      rw [firstBox_eq_head_flatten, hb]
    have hlo : loopOutcome env = (extractPlate (env.ocr b), Option.some (env.preview b)) := by
      unfold loopOutcome
      rw [hfb]
    rw [hlo]
    exact ⟨rfl, rfl⟩

/-- Witness for C5 at a concrete environment (one box; and the zero-box case
through a variant with an empty detector output). -/
theorem C5_detection_first_box_policy_witness :
    envC7.decodeOk = true ∧
    ((loopOutcome envC7).1 = extractPlate (envC7.ocr (10, 10, 200, 80)) ∧
     (loopOutcome envC7).2 = Option.some (envC7.preview (10, 10, 200, 80))) := by
  refine ⟨by decide, ?_⟩
  exact (C5_detection_first_box_policy envC7 (by decide)).2 (10, 10, 200, 80) (by decide)

theorem consultar_marker_branch (placa : String) (env : LookupEnv) (resp : RegHttpResponse)
    (hh : env.http = Except.ok resp) (hc : resp.statusCode = 200)
    (hm : containsMarker resp.content = true) :
    consultar_estado_legal placa env =
      LookupResult.mk ("❌ No se encontró la placa " ++ placa ++ ".") Option.none := by
  unfold consultar_estado_legal
  rw [hh]
  dsimp only
  rw [if_neg (fun h => h hc)]
  rw [if_pos hm]

/-- Concrete registry response carrying the failure marker in its body. -/
def respMarker : RegHttpResponse :=
  RegHttpResponse.mk 200 "<err>Peru Lookup failed</err>" ParsedBody.noVehicleJson

/-- Scenario environment of §8 with the registry answering the marker body. -/
def envC3 : PipelineEnv :=
  PipelineEnv.mk true [[(10, 10, 200, 80)]]
    (fun _ => OcrResult.structured ["ab-12 345"]) (fun _ => "B64PREVIEW")
    (LookupEnv.mk (Except.ok respMarker) false "") []

theorem consultar_transport_error (placa : String) (env : LookupEnv) (e : String)
    (hh : env.http = Except.error e) :
    consultar_estado_legal placa env =
      LookupResult.mk ("⚠ Error conectando con RegCheck: " ++ e) Option.none := by
  unfold consultar_estado_legal
  rw [hh]

theorem consultar_non200 (placa : String) (env : LookupEnv) (resp : RegHttpResponse)
    (hh : env.http = Except.ok resp) (hc : resp.statusCode ≠ 200) :
    consultar_estado_legal placa env =
      LookupResult.mk ("⚠ ERROR " ++ toString resp.statusCode ++ ": Servidor no disponible.")
        Option.none := by
  unfold consultar_estado_legal
  rw [hh]
  dsimp only
  rw [if_pos hc]

theorem consultar_no_vehicle_json (placa : String) (env : LookupEnv) (resp : RegHttpResponse)
    (hh : env.http = Except.ok resp) (hc : resp.statusCode = 200)
    (hm : containsMarker resp.content = false) (hp : resp.parsed = ParsedBody.noVehicleJson) :
    consultar_estado_legal placa env =
      LookupResult.mk ("⚠ No se encontraron datos para " ++ placa ++ ".") Option.none := by
  unfold consultar_estado_legal
  rw [hh]
  dsimp only
  rw [if_neg (fun h => h hc)]
  rw [if_neg (by simp [hm])]
  rw [hp]

theorem consultar_parse_error (placa : String) (env : LookupEnv) (resp : RegHttpResponse)
    (m : String) (hh : env.http = Except.ok resp) (hc : resp.statusCode = 200)
    (hm : containsMarker resp.content = false) (hp : resp.parsed = ParsedBody.parseError m) :
    consultar_estado_legal placa env =
      LookupResult.mk ("⚠ Error conectando con RegCheck: " ++ m) Option.none := by
  unfold consultar_estado_legal
  rw [hh]
  dsimp only
  rw [if_neg (fun h => h hc)]
  rw [if_neg (by simp [hm])]
  rw [hp]

/-- C3: when decoding, detection and OCR succeed but the registry lookup
fails (transport error, non-200 status, failure marker, missing payload or
parse error), `detect_plate` still answers HTTP 200 with status `"success"`,
and the response `estado` is the lookup's text followed only by the optional
alert suffix; the lookup's text is the exact diagnostic of each failure
mode, and in particular a body containing the marker bytes
`"Peru Lookup failed"` yields an `estado` that starts with
`"❌ No se encontró la placa "` followed by the plate. -/
theorem C3_lookup_failure_not_terminal (env : PipelineEnv) (hdec : env.decodeOk = true)
    (hns : ¬((loopOutcome env).1 = "PLACA_NO_ENCONTRADA" ∨ (loopOutcome env).1 = "OCR_FALLIDO")) :
    (lookupFailed env.lookup →
      (detect_plate env).status = "success" ∧ (detect_plate env).httpCode = 200 ∧
      ∃ r rest, (detect_plate env).estado_legal = Option.some r ∧
        r.estado =
          (consultar_estado_legal (removeDashSpace (loopOutcome env).1) env.lookup).estado
            ++ rest) ∧
    (∀ e, env.lookup.http = Except.error e →
      (consultar_estado_legal (removeDashSpace (loopOutcome env).1) env.lookup).estado =
        "⚠ Error conectando con RegCheck: " ++ e) ∧
    (∀ resp, env.lookup.http = Except.ok resp → resp.statusCode ≠ 200 →
      (consultar_estado_legal (removeDashSpace (loopOutcome env).1) env.lookup).estado =
        "⚠ ERROR " ++ toString resp.statusCode ++ ": Servidor no disponible.") ∧
    (∀ resp, env.lookup.http = Except.ok resp → resp.statusCode = 200 →
      containsMarker resp.content = false → resp.parsed = ParsedBody.noVehicleJson →
      (consultar_estado_legal (removeDashSpace (loopOutcome env).1) env.lookup).estado =
        "⚠ No se encontraron datos para " ++ removeDashSpace (loopOutcome env).1 ++ ".") ∧
    (∀ resp m, env.lookup.http = Except.ok resp → resp.statusCode = 200 →
      containsMarker resp.content = false → resp.parsed = ParsedBody.parseError m →
      (consultar_estado_legal (removeDashSpace (loopOutcome env).1) env.lookup).estado =
        "⚠ Error conectando con RegCheck: " ++ m) ∧
    (∀ resp, env.lookup.http = Except.ok resp → resp.statusCode = 200 →
      containsMarker resp.content = true →
      ∃ r rest, (detect_plate env).estado_legal = Option.some r ∧
        r.estado = "❌ No se encontró la placa " ++ removeDashSpace (loopOutcome env).1 ++ rest) := by
  have hsucc := detect_plate_success env hdec hns
  refine ⟨?_, ?_, ?_, ?_, ?_, ?_⟩
  · intro _
    rw [hsucc]
    refine ⟨rfl, rfl, ?_⟩
    cases hv : verificar_reporte (removeDashSpace (loopOutcome env).1) env.reports with
    | none => exact ⟨_, "", rfl, by simp⟩
    | some descripcion =>
      refine ⟨_, " 🚨 ALERTA: " ++ descripcion, rfl, ?_⟩
      simp [String.append_assoc]
  · intro e hh
    rw [consultar_transport_error _ env.lookup e hh]
  · intro resp hh hc
    rw [consultar_non200 _ env.lookup resp hh hc]
  · intro resp hh hc hm hp
    rw [consultar_no_vehicle_json _ env.lookup resp hh hc hm hp]
  · intro resp m hh hc hm hp
    rw [consultar_parse_error _ env.lookup resp m hh hc hm hp]
  · intro resp hh hc hm
    have hbase := consultar_marker_branch (removeDashSpace (loopOutcome env).1) env.lookup resp hh hc hm
    rw [hsucc]
    cases hv : verificar_reporte (removeDashSpace (loopOutcome env).1) env.reports with
    | none =>
      refine ⟨_, ".", rfl, ?_⟩
      rw [hbase]
    | some descripcion =>
      refine ⟨_, "." ++ " 🚨 ALERTA: " ++ descripcion, rfl, ?_⟩
      rw [hbase]
      simp [String.append_assoc]

/-- Witness for C3: the §8 marker scenario environment, exercising the
general conclusion and the marker-specific one. -/
theorem C3_lookup_failure_not_terminal_witness :
    ((detect_plate envC3).status = "success" ∧ (detect_plate envC3).httpCode = 200 ∧
     ∃ r rest, (detect_plate envC3).estado_legal = Option.some r ∧
       r.estado =
         (consultar_estado_legal (removeDashSpace (loopOutcome envC3).1) envC3.lookup).estado
           ++ rest) ∧
    (∃ r rest, (detect_plate envC3).estado_legal = Option.some r ∧
      r.estado = "❌ No se encontró la placa " ++ removeDashSpace (loopOutcome envC3).1 ++ rest) := by
  have h := C3_lookup_failure_not_terminal envC3 (by decide) (by decide)
  exact ⟨h.1 (Or.inr ⟨respMarker, rfl, Or.inr (Or.inl (by decide))⟩),
         h.2.2.2.2.2 respMarker rfl rfl (by decide)⟩

theorem find?_eq_of_mem_distinct (db : List Reporte) (q : String) (hdb : distinctPlates db)
    (r : Reporte) (hr : r ∈ db) (hq : r.placa = q) :
    db.find? (fun x => x.placa == q) = Option.some r := by
  induction db with
  | nil => cases hr
  | cons a as ih =>
    have hdb2 := List.pairwise_cons.mp hdb
    rcases List.mem_cons.mp hr with h | h
    · subst h
      exact List.find?_cons_of_pos _ (by simp [hq])
    · have hne : a.placa ≠ q := by
        have := hdb2.1 r h
        rw [hq] at this
        exact this
      rw [List.find?_cons_of_neg _ (by simp [hne])]
      exact ih hdb2.2 h

/-- Environment with a matching report entry for the recognized plate. -/
def envC6 : PipelineEnv :=
  PipelineEnv.mk true [[(10, 10, 200, 80)]]
    (fun _ => OcrResult.structured ["AB12345"]) (fun _ => "B64PREVIEW") stubLookup
    [Reporte.mk "AB12345" "Robado" 0]

/-- C6: on a successfully recognized plate, if a report row's plate exactly
equals the canonical plate then the returned `estado` is the base registry
status with exactly `" 🚨 ALERTA: "` and that row's description appended
(and the image URL untouched); if no row matches, the result is exactly the
base lookup result. (The row uniqueness hypothesis is the `UNIQUE`
constraint of the `reportes` table.) -/
theorem C6_alert_suffix (env : PipelineEnv) (hdec : env.decodeOk = true)
    (hns : ¬((loopOutcome env).1 = "PLACA_NO_ENCONTRADA" ∨ (loopOutcome env).1 = "OCR_FALLIDO"))
    (hdb : distinctPlates env.reports) :
    (∀ r, r ∈ env.reports → r.placa = removeDashSpace (loopOutcome env).1 →
      (detect_plate env).estado_legal = Option.some (LookupResult.mk
        ((consultar_estado_legal (removeDashSpace (loopOutcome env).1) env.lookup).estado
          ++ " 🚨 ALERTA: " ++ r.descripcion)
        (consultar_estado_legal (removeDashSpace (loopOutcome env).1) env.lookup).imagen_url)) ∧
    ((∀ r, r ∈ env.reports → r.placa ≠ removeDashSpace (loopOutcome env).1) →
      (detect_plate env).estado_legal =
        Option.some (consultar_estado_legal (removeDashSpace (loopOutcome env).1) env.lookup)) := by
  have hsucc := detect_plate_success env hdec hns
  constructor
  · intro r hr hq
    have hv : verificar_reporte (removeDashSpace (loopOutcome env).1) env.reports =
        Option.some r.descripcion := by
      unfold verificar_reporte
      rw [find?_eq_of_mem_distinct env.reports _ hdb r hr hq]
    rw [hsucc, hv]
  · intro hnone
    have hv : verificar_reporte (removeDashSpace (loopOutcome env).1) env.reports =
        Option.none := by
      unfold verificar_reporte
      rw [List.find?_eq_none.mpr ?_]
      intro x hx
      simp only [beq_iff_eq]
      exact hnone x hx
    rw [hsucc, hv]

/-- Witness for C6: the plate `"AB12345"` with the report entry `"Robado"`. -/
theorem C6_alert_suffix_witness :
    (detect_plate envC6).estado_legal = Option.some (LookupResult.mk
      ((consultar_estado_legal (removeDashSpace (loopOutcome envC6).1) envC6.lookup).estado
        ++ " 🚨 ALERTA: " ++ (Reporte.mk "AB12345" "Robado" 0).descripcion)
      (consultar_estado_legal (removeDashSpace (loopOutcome envC6).1) envC6.lookup).imagen_url) := by
  exact (C6_alert_suffix envC6 (by decide) (by decide) (by simp [distinctPlates, envC6])).1
    (Reporte.mk "AB12345" "Robado" 0) (by simp [envC6]) (by decide)

/-- Environment where a region is detected but the OCR result has no text
span (`rec_texts = []`), the `OcrFailure` case. -/
def envC4 : PipelineEnv :=
  PipelineEnv.mk true [[(1, 2, 3, 4)]]
    (fun _ => OcrResult.structured []) (fun _ => "PREVIEWB64") stubLookup []

/-- C4 counterexample: a plate region is detected (`firstBox` is some) and
OCR fails, and the `OcrFailure` response carries **no** `placa_imagen`
preview — the 400 "fail" body of line 251 only has `status`,
`placa_detectada` and `message` keys, refuting the claim that the preview is
present in the OcrFailure response. -/
theorem C4_counterexample :
    firstBox envC4.results = Option.some (1, 2, 3, 4) ∧
    (detect_plate envC4).status = "fail" ∧
    (detect_plate envC4).placa_detectada = Option.some "OCR_FALLIDO" ∧
    (detect_plate envC4).placa_imagen = Option.none := by
  decide

/-- C4 (amended): when a plate region is detected, the base64 JPEG preview
of the crop is computed regardless of OCR success, but it is included in the
response only in the success case; every "fail" response carries no
preview. -/
theorem C4_preview_only_on_success (env : PipelineEnv) (b : Box)
    (hdec : env.decodeOk = true) (hb : firstBox env.results = Option.some b) :
    ((detect_plate env).status = "success" →
      (detect_plate env).placa_imagen = Option.some (env.preview b)) ∧
    ((detect_plate env).status = "fail" →
      (detect_plate env).placa_imagen = Option.none) := by
  have hlo : loopOutcome env = (extractPlate (env.ocr b), Option.some (env.preview b)) := by
    unfold loopOutcome
    rw [hb]
  by_cases hs : (loopOutcome env).1 = "PLACA_NO_ENCONTRADA" ∨ (loopOutcome env).1 = "OCR_FALLIDO"
  · have hfail := detect_plate_sentinel env hdec hs
    constructor
    · intro hsucc
      rw [hfail] at hsucc
      simp at hsucc
    · intro _
      rw [hfail]
  · have hsucc := detect_plate_success env hdec hs
    constructor
    · intro _
      rw [hsucc]
      dsimp only
      rw [hlo]
    · intro hfail
      rw [hsucc] at hfail
      simp at hfail

/-- Witness for C4 (amended), at the success scenario environment. -/
theorem C4_preview_only_on_success_witness :
    (detect_plate envC7).placa_imagen = Option.some (envC7.preview (10, 10, 200, 80)) := by
  exact (C4_preview_only_on_success envC7 (10, 10, 200, 80) (by decide) (by decide)).1 (by decide)

/-- Vehicle payload used in the C2 registry-success scenarios. -/
def vdC2 : VehicleData :=
  VehicleData.mk (Option.some "Toyota") (Option.some "Corolla") (Option.some "2015")
    (Option.some "VIN123") (Option.some "Particular") (Option.some "Juan Perez")
    (Option.some "http://img.example/x.jpg")

/-- Registry response that fully succeeds: HTTP 200, no failure marker,
well-formed XML with a non-empty embedded vehicle JSON. -/
def respC2 : RegHttpResponse := RegHttpResponse.mk 200 "<xml/>" (ParsedBody.vehicle vdC2)

/-- The C2 lookup environment whose persistence step raises. -/
def envC2fail : LookupEnv := LookupEnv.mk (Except.ok respC2) true "db down"

/-- The same lookup environment with persistence succeeding. -/
def envC2ok : LookupEnv := LookupEnv.mk (Except.ok respC2) false ""

/-- C2 counterexample: on a registry lookup that succeeds in every respect,
a failing persistence step **does** change the result — the caller receives
the error-shaped `"⚠ Error conectando con RegCheck: ..."` result with a null
image URL instead of the `"✅ Marca: ..."` success status (shown by contrast
with the identical environment whose persistence succeeds). -/
theorem C2_counterexample :
    consultar_estado_legal "AB12345" envC2ok =
      LookupResult.mk
        "✅ Marca: Toyota, Modelo: Corolla, Año: 2015, Uso: Particular, VIN: VIN123, Propietario: Juan Perez"
        (Option.some "http://img.example/x.jpg") ∧
    consultar_estado_legal "AB12345" envC2fail =
      LookupResult.mk "⚠ Error conectando con RegCheck: db down" Option.none ∧
    (consultar_estado_legal "AB12345" envC2fail).estado ≠
      (consultar_estado_legal "AB12345" envC2ok).estado ∧
    (consultar_estado_legal "AB12345" envC2fail).imagen_url = Option.none := by
  decide

/-- C2 (amended): `guardar_consulta` runs inside the `try` of
`consultar_estado_legal`, so when the lookup succeeds (HTTP 200, no marker,
vehicle payload parsed) the result depends on the persistence step: if
persistence raises, the `except` of line 190 returns the error-shaped
RegCheck result; only if persistence succeeds does the caller receive the
`"✅ Marca: ..."` status string and the image URL. -/
theorem C2_persistence_failure_masks_success (placa : String) (env : LookupEnv)
    (resp : RegHttpResponse) (d : VehicleData)
    (hh : env.http = Except.ok resp) (hc : resp.statusCode = 200)
    (hm : containsMarker resp.content = false) (hp : resp.parsed = ParsedBody.vehicle d) :
    (env.persistFails = true →
      consultar_estado_legal placa env =
        LookupResult.mk ("⚠ Error conectando con RegCheck: " ++ env.persistError)
          Option.none) ∧
    (env.persistFails = false →
      consultar_estado_legal placa env =
        LookupResult.mk
          ("✅ Marca: " ++ d.make.getD "N/A" ++ ", Modelo: " ++ d.model.getD "N/A" ++
           ", Año: " ++ d.registrationYear.getD "N/A" ++ ", Uso: " ++ d.use.getD "Desconocido" ++
           ", VIN: " ++ d.vin.getD "No disponible" ++ ", Propietario: " ++ d.owner.getD "No disponible")
          d.imageUrl) := by
  unfold consultar_estado_legal
  rw [hh]
  dsimp only
  rw [if_neg (fun h => h hc)]
  rw [if_neg (by simp [hm])]
  rw [hp]
  dsimp only
  constructor
  · intro hpf
    rw [if_pos hpf]
  · intro hpf
    rw [if_neg (by simp [hpf])]

/-- Witness for C2 (amended): the concrete environment `envC2fail`. -/
theorem C2_persistence_failure_masks_success_witness :
    consultar_estado_legal "AB12345" envC2fail =
      LookupResult.mk "⚠ Error conectando con RegCheck: db down" Option.none := by
  exact (C2_persistence_failure_masks_success "AB12345" envC2fail respC2 vdC2
    rfl rfl (by decide) rfl).1 rfl

-- ### Report-store lemmas

theorem updateFirst_length (placa desc : String) (now : Nat) (l : List Reporte) :
    (updateFirst placa desc now l).length = l.length := by
  induction l with
  | nil => rfl
  | cons a as ih =>
    unfold updateFirst
    by_cases h : a.placa == placa
    · rw [if_pos h]
      simp
    · rw [if_neg h]
      simp [ih]

theorem updateFirst_map_placa (placa desc : String) (now : Nat) (l : List Reporte) :
    (updateFirst placa desc now l).map Reporte.placa = l.map Reporte.placa := by
  induction l with
  | nil => rfl
  | cons a as ih =>
    unfold updateFirst
    by_cases h : a.placa == placa
    · rw [if_pos h]
      simp
    · rw [if_neg h]
      simp [ih]

theorem distinctPlates_iff_map (db : List Reporte) :
    distinctPlates db ↔ (db.map Reporte.placa).Pairwise (fun a b => a ≠ b) := by
  unfold distinctPlates
  rw [List.pairwise_map]

theorem verificar_updateFirst (placa desc : String) (now : Nat) (db : List Reporte)
    (h : ∃ r, r ∈ db ∧ r.placa = placa) :
    verificar_reporte placa (updateFirst placa desc now db) = Option.some desc := by
  induction db with
  | nil =>
    rcases h with ⟨r, hr, _⟩
    cases hr
  | cons a as ih =>
    unfold updateFirst
    by_cases ha : a.placa == placa
    · rw [if_pos ha]
      unfold verificar_reporte
      rw [List.find?_cons_of_pos _ (by simpa using ha)]
    · rw [if_neg ha]
      have h2 : ∃ r, r ∈ as ∧ r.placa = placa := by
        rcases h with ⟨r, hr, hq⟩
        rcases List.mem_cons.mp hr with hEq | hr2
        · subst hEq
          exact absurd (by simp [hq]) ha
        · exact ⟨r, hr2, hq⟩
      have hrec := ih h2
      unfold verificar_reporte at hrec ⊢
      rw [List.find?_cons_of_neg _ (by simpa using ha)]
      exact hrec

theorem foldl_guardar_reporte_distinct (subs : List (String × String × Nat))
    (db : List Reporte) (hdb : distinctPlates db)
    (hstep : ∀ p d n acc, distinctPlates acc → distinctPlates (guardar_reporte p d n acc)) :
    distinctPlates (subs.foldl (fun acc s => guardar_reporte s.1 s.2.1 s.2.2 acc) db) := by
  induction subs generalizing db with
  | nil => exact hdb
  | cons s ss ih =>
    exact ih (guardar_reporte s.1 s.2.1 s.2.2 db) (hstep s.1 s.2.1 s.2.2 db hdb)

theorem guardar_reporte_preserves_distinct (placa desc : String) (now : Nat)
    (db : List Reporte) (h : distinctPlates db) :
    distinctPlates (guardar_reporte placa desc now db) := by
  unfold guardar_reporte
  cases hf : db.find? (fun r => r.placa == placa) with
  | some r0 =>
    rw [distinctPlates_iff_map] at h ⊢
    rw [updateFirst_map_placa]
    exact h
  | none =>
    unfold distinctPlates at h ⊢
    rw [List.pairwise_append]
    refine ⟨h, List.pairwise_singleton _ _, ?_⟩
    intro a ha b hb
    have hb2 : b = Reporte.mk placa desc now := List.mem_singleton.mp hb
    subst hb2
    have := List.find?_eq_none.mp hf a ha
    simp only [beq_iff_eq] at this
    exact this

/-- C8: the report store keeps at most one entry per plate. Starting from any
table satisfying the unique-plate invariant, `guardar_reporte` preserves the
invariant; a submission for an existing plate rewrites that entry in place
(same length, and the lookup now answers the new description); a submission
for a new plate appends exactly one entry; and any sequence of submissions
preserves the invariant. -/
theorem C8_report_upsert (placa desc : String) (now : Nat) (db : List Reporte)
    (hdb : distinctPlates db) :
    distinctPlates (guardar_reporte placa desc now db) ∧
    ((∃ r, r ∈ db ∧ r.placa = placa) →
      (guardar_reporte placa desc now db).length = db.length ∧
      verificar_reporte placa (guardar_reporte placa desc now db) = Option.some desc) ∧
    ((¬ ∃ r, r ∈ db ∧ r.placa = placa) →
      guardar_reporte placa desc now db = db ++ [Reporte.mk placa desc now]) ∧
    (∀ subs : List (String × String × Nat),
      distinctPlates (subs.foldl (fun acc s => guardar_reporte s.1 s.2.1 s.2.2 acc) db)) := by
  have hins : (¬ ∃ r, r ∈ db ∧ r.placa = placa) →
      guardar_reporte placa desc now db = db ++ [Reporte.mk placa desc now] := by
    intro h
    unfold guardar_reporte
    have hf : db.find? (fun r => r.placa == placa) = Option.none := by
      rw [List.find?_eq_none]
      intro x hx
      simp only [beq_iff_eq]
      exact fun hq => h ⟨x, hx, hq⟩
    rw [hf]
  refine ⟨guardar_reporte_preserves_distinct placa desc now db hdb, ?_, hins, ?_⟩
  · intro h
    have hf : ∃ r0, db.find? (fun r => r.placa == placa) = Option.some r0 := by
      rcases h with ⟨r, hr, hq⟩
      exact Option.isSome_iff_exists.mp (List.find?_isSome.mpr ⟨r, hr, by simp [hq]⟩)
    rcases hf with ⟨r0, hf⟩
    constructor
    · unfold guardar_reporte
      rw [hf]
      exact updateFirst_length placa desc now db
    · unfold guardar_reporte
      rw [hf]
      exact verificar_updateFirst placa desc now db h
  · intro subs
    exact foldl_guardar_reporte_distinct subs db hdb
      (fun p d n acc hacc => guardar_reporte_preserves_distinct p d n acc hacc)

/-- Witness for C8: overwriting the single entry for `"AB123"`. -/
theorem C8_report_upsert_witness :
    (guardar_reporte "AB123" "nuevo" 1 [Reporte.mk "AB123" "viejo" 0]).length = 1 ∧
    verificar_reporte "AB123" (guardar_reporte "AB123" "nuevo" 1 [Reporte.mk "AB123" "viejo" 0]) =
      Option.some "nuevo" := by
  have h := (C8_report_upsert "AB123" "nuevo" 1 [Reporte.mk "AB123" "viejo" 0]
    (by simp [distinctPlates])).2.1 ⟨Reporte.mk "AB123" "viejo" 0, by simp, rfl⟩
  exact ⟨h.1, h.2⟩

-- ### Character-class facts connecting the two plate normalizations

theorem canonicalize_all_alnum (t : String) (c : Char)
    (hc : c ∈ (canonicalize t).toList) : pyIsAlnum c = true := by
  rw [canonicalize_eq_canonList, toList_asString] at hc
  exact canonList_all_alnum _ c hc

theorem mem_removeChar (x : Char) (s : String) (c : Char)
    (hc : c ∈ (removeChar x s).toList) : c ∈ s.toList := by
  unfold removeChar at hc
  rw [toList_asString] at hc
  exact List.mem_of_mem_filter hc

theorem mem_removeDashSpace (s : String) (c : Char)
    (hc : c ∈ (removeDashSpace s).toList) : c ∈ s.toList :=
  mem_removeChar '-' s c (mem_removeChar ' ' (removeChar '-' s) c hc)

theorem extractPlate_canonical (o : OcrResult)
    (hns : ¬(extractPlate o = "PLACA_NO_ENCONTRADA" ∨ extractPlate o = "OCR_FALLIDO")) :
    ∃ t, extractPlate o = canonicalize t := by
  cases o with
  | falsy => exact absurd (Or.inr rfl) hns
  | structured rec_texts =>
    cases rec_texts with
    | nil => exact absurd (Or.inr rfl) hns
    | cons t _ => exact ⟨t, rfl⟩
  | legacy dets =>
    cases dets with
    | nil => exact absurd (Or.inr rfl) hns
    | cons d _ => exact ⟨d, rfl⟩

theorem ne_of_nonalnum_mem (p q : String) (c : Char) (hc : c ∈ p.toList)
    (hbad : pyIsAlnum c = false)
    (hq : ∀ x, x ∈ q.toList → pyIsAlnum x = true) : p ≠ q := by
  intro hEq
  subst hEq
  rw [hq c hc] at hbad
  cases hbad

/-- Environment whose report table holds the plate `"AB-123"` (stored by the
report endpoint only trimmed and uppercased) while the OCR recognizes
`"AB123"`. -/
def envC10 : PipelineEnv :=
  PipelineEnv.mk true [[(10, 10, 200, 80)]]
    (fun _ => OcrResult.structured ["AB123"]) (fun _ => "B64PREVIEW") stubLookup
    [Reporte.mk "AB-123" "sospechoso" 0]

/-- C10: a report registered through `/api/reportar` whose stored plate
(trimmed, uppercased, but **not** alphanumeric-filtered) contains a
non-alphanumeric character can never match the alert cross-check of a
successful detection: the pipeline queries by the alphanumeric-only
canonical plate, so that entry's plate differs from every query, and any
description the cross-check does return comes from a different entry whose
plate equals the query. -/
theorem C10_nonalnum_report_never_matches (raw : String) (env : PipelineEnv) (r : Reporte)
    (hr : r ∈ env.reports) (hp : r.placa = reportStoredPlate raw)
    (hbad : ∃ c, c ∈ r.placa.toList ∧ pyIsAlnum c = false)
    (hs : (detect_plate env).status = "success") :
    r.placa ≠ removeDashSpace (loopOutcome env).1 ∧
    (∀ d, verificar_reporte (removeDashSpace (loopOutcome env).1) env.reports = Option.some d →
      ∃ r2, r2 ∈ env.reports ∧ r2.placa = removeDashSpace (loopOutcome env).1 ∧
        d = r2.descripcion ∧ r2.placa ≠ r.placa) := by
  obtain ⟨hdec, hns⟩ := detect_plate_status_success_inv env hs
  have hq : ∀ x, x ∈ (removeDashSpace (loopOutcome env).1).toList → pyIsAlnum x = true := by
    have hcanon : ∃ t, (loopOutcome env).1 = canonicalize t := by
      cases hfb : firstBox env.results with
      | none =>
        have hlo : (loopOutcome env).1 = "PLACA_NO_ENCONTRADA" := by
          unfold loopOutcome
          rw [hfb]
        exact absurd (Or.inl hlo) hns
      | some b =>
        have hlo : (loopOutcome env).1 = extractPlate (env.ocr b) := by
          unfold loopOutcome
          rw [hfb]
        rw [hlo] at hns ⊢
        exact extractPlate_canonical (env.ocr b) hns
    rcases hcanon with ⟨t, ht⟩
    rw [ht]
    intro x hx
    exact canonicalize_all_alnum t x (mem_removeDashSpace _ x hx)
  rcases hbad with ⟨c, hc, hcbad⟩
  have hneq : r.placa ≠ removeDashSpace (loopOutcome env).1 :=
    ne_of_nonalnum_mem _ _ c hc hcbad hq
  refine ⟨hneq, ?_⟩
  intro d hv
  unfold verificar_reporte at hv
  cases hf : env.reports.find? (fun x => x.placa == removeDashSpace (loopOutcome env).1) with
  | none =>
    rw [hf] at hv
    cases hv
  | some r2 =>
    rw [hf] at hv
    dsimp only at hv
    have hd : d = r2.descripcion := (Option.some.inj hv).symm
    have hmem := List.mem_of_find?_eq_some hf
    have hpred := List.find?_some hf
    simp only [beq_iff_eq] at hpred
    refine ⟨r2, hmem, hpred, hd, ?_⟩
    rw [hpred]
    intro hEq
    exact hneq hEq.symm

/-- Witness for C10: the stored plate `"AB-123"` (from raw `"ab-123 "`)
never matches the canonical query of the successful `envC10` request. -/
theorem C10_nonalnum_report_never_matches_witness :
    (Reporte.mk "AB-123" "sospechoso" 0).placa ≠ removeDashSpace (loopOutcome envC10).1 := by
  exact (C10_nonalnum_report_never_matches "ab-123 " envC10
    (Reporte.mk "AB-123" "sospechoso" 0) (by simp [envC10]) (by decide)
    ⟨'-', by decide, by decide⟩ (by decide)).1
